import Mathlib

/-!
Shallow embedding of the pagination and data-service core of the
quick-file-context-upload repository.

Embedded source code:
- `src/hooks/useInfiniteScroll.ts` : the fetch coordinator (`loadMore`, `reset`)
  and its state (`items`, `page`, `isLoading`, `hasMore`, `error`, plus the
  synchronous in-flight guard `isFetchingRef`).
- `src/services/fileService.ts` (unnamed part) : the in-memory mock store
  operations `getFilteredFiles` (filter then paginate) and `analyzeFile`.
- `src/components/FileGrid.tsx` : the `fetchFiles` adapter handed to
  `loadMore` (page size constant `ITEMS_PER_PAGE = 9`).

Modelling conventions: JavaScript numbers that are used as counts, page
cursors or sizes are embedded as `Nat` (timestamps as `Int`); promises that
may reject are embedded as an explicit outcome type; the mutable module
state of the service is passed explicitly as a `List FileItem`.  String
operations (`toLowerCase`, `includes`, `trim`) are embedded as executable
functions over the underlying character list so that concrete instances
evaluate by kernel reduction; these agree with the JavaScript operations on
the ASCII data this repository manipulates.
-/

/-! ## Data model (FileUploader.tsx, lines 10-26) -/

/-- Upload lifecycle states, from the `FileUploadStatus` enum. -/
inductive FileUploadStatus where
  | unspecified
  | inProgress
  | complete
  | failed
  deriving DecidableEq

/-- One uploaded artifact, from the `FileItem` interface.  The TS field
`progress?: number` is optional, hence `Option Nat`. -/
structure FileItem where
  id : String
  name : String
  size : Nat
  type : String
  context : String
  lastModified : Int
  status : FileUploadStatus
  progress : Option Nat
  deriving DecidableEq

/-! ## Executable string operations

The builtin `String.toLower` and `String.trim` are implemented over byte
positions and do not reduce inside the kernel, so the JavaScript string
operations are embedded over `String.data` (the character list) instead. -/

/-- Substring occurrence test on character lists: `listIncludes needle hay`
is true when `needle` occurs contiguously in `hay` (also when `needle` is
empty, matching `String.prototype.includes`). -/
def listIncludes (needle : List Char) : List Char → Bool
  | [] => needle.isEmpty
  | c :: rest => needle.isPrefixOf (c :: rest) || listIncludes needle rest

/-- Embedding of `String.prototype.toLowerCase` (ASCII-faithful). -/
def strToLower (s : String) : String :=
  String.mk (s.data.map Char.toLower)

/-- Embedding of `s.includes(sub)`. -/
def strIncludes (s sub : String) : Bool :=
  listIncludes sub.data s.data

/-- Embedding of `String.prototype.trim`: drop leading and trailing
whitespace characters. -/
def strTrim (s : String) : String :=
  String.mk (((s.data.dropWhile Char.isWhitespace).reverse.dropWhile
    Char.isWhitespace).reverse)

/-! ## Mock data store: filtering and pagination
(fileService, `getFilteredFiles`, lines 93-159)

The impure parts of the service (simulated delay, lazy seeding of the store
with randomly generated records on first query) are outside the pure query
logic embedded here: every operation takes the current store contents
`submittedFiles : List FileItem` explicitly. -/

/-- Filter criteria of `getFilteredFiles`.  The TS shape is
`{ query?: string; fileTypes?: string[]; dateRange?: { from?: Date; to?: Date } }`;
the two optional members of `dateRange` are flattened into two options
(a present but empty `dateRange` behaves exactly like an absent one). -/
structure FileFilters where
  query : Option String := none
  fileTypes : Option (List String) := none
  dateFrom : Option Int := none
  dateTo : Option Int := none
  deriving DecidableEq

/-- Predicate of the text-search filter (lines 118-123): the lowercased
name includes the lowercased query, or the context is truthy (non-empty)
and its lowercase form includes the query.  `query` is already lowercased
by the caller, as in the source. -/
def matchesQuery (query : String) (file : FileItem) : Bool :=
  strIncludes (strToLower file.name) query ||
    (file.context != "" && strIncludes (strToLower file.context) query)

/-- Text-search filter stage (lines 117-124).  The stage applies only when
the query is truthy (non-empty) and does not trim to the empty string. -/
def applyTextFilter (q : Option String) (files : List FileItem) : List FileItem :=
  match q with
  | some qs =>
    if qs ≠ "" ∧ strTrim qs ≠ "" then files.filter (matchesQuery (strToLower qs))
    else files
  | none => files

/-- File-type filter stage (lines 127-131): membership of `file.type` in the
requested list, applied only when the list is present and non-empty. -/
def applyTypeFilter (fileTypes : Option (List String)) (files : List FileItem) :
    List FileItem :=
  match fileTypes with
  | some ts =>
    if 0 < ts.length then files.filter (fun file => ts.contains file.type)
    else files
  | none => files

/-- Lower-bound date filter stage (lines 135-139). -/
def applyDateFromFilter (dateFrom : Option Int) (files : List FileItem) :
    List FileItem :=
  match dateFrom with
  | some fromTime => files.filter (fun file => decide (fromTime ≤ file.lastModified))
  | none => files

/-- Upper-bound date filter stage (lines 141-145). -/
def applyDateToFilter (dateTo : Option Int) (files : List FileItem) :
    List FileItem :=
  match dateTo with
  | some toTime => files.filter (fun file => decide (file.lastModified ≤ toTime))
  | none => files

/-- The full filter pipeline of `getFilteredFiles` before pagination
(lines 113-146), applied in the fixed source order: text, type, date. -/
def filteredFiles (submittedFiles : List FileItem) (filters : FileFilters) :
    List FileItem :=
  let filtered := submittedFiles
  let filtered := applyTextFilter filters.query filtered
  let filtered := applyTypeFilter filters.fileTypes filtered
  let filtered := applyDateFromFilter filters.dateFrom filtered
  let filtered := applyDateToFilter filters.dateTo filtered
  filtered

/-- Result shape of `getFilteredFiles`: `{ files, total }`. -/
structure FilesPage where
  files : List FileItem
  total : Nat
  deriving DecidableEq

/-- Pure core of `getFilteredFiles` (lines 113-158): filter, record the
pre-pagination total, then slice `[(page-1)*limit, (page-1)*limit + limit)`.
`filtered.slice(startIdx, endIdx)` with the non-negative indices produced by
a 1-based page is `drop startIdx` followed by `take limit`. -/
def getFilteredFiles (submittedFiles : List FileItem) (filters : FileFilters)
    (page limit : Nat) : FilesPage :=
  let filtered := filteredFiles submittedFiles filters
  let total := filtered.length
  let startIdx := (page - 1) * limit
  { files := (filtered.drop startIdx).take limit, total := total }

/-- Truthiness of the text filter as a standalone predicate; used to state
which records survive `applyTextFilter`. -/
def passesText (q : Option String) (file : FileItem) : Bool :=
  match q with
  | some qs =>
    if qs ≠ "" ∧ strTrim qs ≠ "" then matchesQuery (strToLower qs) file
    else true
  | none => true

/-- Which records survive `applyTypeFilter`. -/
def passesType (fileTypes : Option (List String)) (file : FileItem) : Bool :=
  match fileTypes with
  | some ts => if 0 < ts.length then ts.contains file.type else true
  | none => true

/-- Which records survive `applyDateFromFilter`. -/
def passesDateFrom (dateFrom : Option Int) (file : FileItem) : Bool :=
  match dateFrom with
  | some fromTime => decide (fromTime ≤ file.lastModified)
  | none => true

/-- Which records survive `applyDateToFilter`. -/
def passesDateTo (dateTo : Option Int) (file : FileItem) : Bool :=
  match dateTo with
  | some toTime => decide (file.lastModified ≤ toTime)
  | none => true

/-! ## Mock analysis (fileService, `analyzeFile`, lines 175-201) -/

/-- Shape of the analysis response. -/
structure AnalysisResult where
  summary : String
  insights : List String
  recommendations : List String
  deriving DecidableEq

/-- The fixed mock response returned by `analyzeFile` on success
(lines 188-200). -/
def mockAnalysis : AnalysisResult :=
  { summary := "Analysis identified multiple pod startup failures in the Kubernetes cluster. The issues appear to be related to container initialization problems with the \x27alex-bird\x27 service."
    insights := [
      "Consistent failures in pod initialization at 11:57:35 AM on September 26",
      "All errors are related to the same service component",
      "The StartContainer command is failing consistently"]
    recommendations := [
      "Check the container image for the \x27alex-bird\x27 service",
      "Verify resource constraints on the affected pods",
      "Inspect init container configurations"] }

/-- Embedding of `analyzeFile(fileId, prompt)`: look the id up with `find`;
throw `"File not found"` when absent, otherwise return the mock result.
The function never reassigns `submittedFiles`, so the store is returned
unchanged in both branches.  The `prompt` argument is only logged by the
source and does not influence the result. -/
def analyzeFile (submittedFiles : List FileItem) (fileId : String)
    (prompt : String) : Except String AnalysisResult × List FileItem :=
  match submittedFiles.find? (fun f => f.id == fileId) with
  | none => (Except.error "File not found", submittedFiles)
  | some _ => (Except.ok mockAnalysis, submittedFiles)

/-! ## Fetch coordinator (useInfiniteScroll.ts, lines 10-62) -/

/-- Outcome of one `fetchFn(page)` promise.
`ok (some data) totalCount pageSize` is resolution with an array `data`
(the `Array.isArray(result.data)` test succeeds);
`ok none _ _` is resolution whose `data` member is not an array;
`rejected msg` is rejection (the `catch` branch) carrying the message
stored into `error`. -/
inductive FetchOutcome (T : Type) where
  | ok (data : Option (List T)) (totalCount : Nat) (pageSize : Nat)
  | rejected (msg : String)
  deriving DecidableEq

/-- Coordinator state: the five `useState` cells plus the synchronous
in-flight guard `isFetchingRef.current`. -/
structure CoordState (T : Type) where
  items : List T
  page : Nat
  isLoading : Bool
  hasMore : Bool
  error : Option String
  isFetching : Bool
  deriving DecidableEq

/-- Initial state of the hook (lines 15-21): empty items, `page` at the
configured initial page, not loading, `hasMore` optimistically true, no
error, guard clear. -/
def initCoordState {T : Type} (initialPage : Nat) : CoordState T :=
  { items := []
    page := initialPage
    isLoading := false
    hasMore := true
    error := none
    isFetching := false }

/-- Embedding of `Math.ceil(totalCount / pageSize)` (line 41).  For
`pageSize > 0` this ceiling division coincides with the JavaScript float
computation; `pageSize = 0` (a division by zero yielding Infinity) is
outside the pagination contract, which requires a positive limit. -/
def totalPages (totalCount pageSize : Nat) : Nat :=
  (totalCount + pageSize - 1) / pageSize

/-- Synchronous prefix of `loadMore` up to the `await` (lines 24-31): if the
in-flight guard is set, return immediately having dispatched nothing;
otherwise set the guard, set `isLoading`, clear `error`, and dispatch the
fetch.  The boolean records whether `fetchFn` was dispatched. -/
def loadMoreStart {T : Type} (s : CoordState T) : CoordState T × Bool :=
  if s.isFetching then (s, false)
  else ({ s with isFetching := true, isLoading := true, error := none }, true)

/-- Continuation of `loadMore` after the fetch settles (lines 33-53).
`capturedPage` is the `page` value the closure captured when the call began
(the value passed to `fetchFn`).  On an array result: replace `items` when
the captured page equals the initial page, otherwise append; set `hasMore`
from the captured page against the page total; increment `page`.  On a
non-array result: leave `items`, `page`, `hasMore` untouched.  On
rejection: store the error.  The `finally` block always clears `isLoading`
and the guard. -/
def loadMoreFinish {T : Type} (initialPage capturedPage : Nat)
    (result : FetchOutcome T) (s : CoordState T) : CoordState T :=
  match result with
  | FetchOutcome.ok (some data) totalCount pageSize =>
    { s with
      items := if capturedPage = initialPage then data else s.items ++ data
      hasMore := decide (capturedPage < totalPages totalCount pageSize)
      page := s.page + 1
      isLoading := false
      isFetching := false }
  | FetchOutcome.ok none _ _ =>
    { s with isLoading := false, isFetching := false }
  | FetchOutcome.rejected msg =>
    { s with error := some msg, isLoading := false, isFetching := false }

/-- One complete, awaited `loadMore(fetchFn)` call (lines 23-54).  The
second component lists the pages `fetchFn` was invoked with during the call
(`[page]` when dispatched, `[]` when the guard suppressed the call), so
invocation counts are part of the result. -/
def loadMore {T : Type} (initialPage : Nat) (fetchFn : Nat → FetchOutcome T)
    (s : CoordState T) : CoordState T × List Nat :=
  let started := loadMoreStart s
  if started.2 then
    (loadMoreFinish initialPage s.page (fetchFn s.page) started.1, [s.page])
  else (s, [])

/-- Embedding of `reset` (lines 56-62): clear `items`, reset `page`, set
`hasMore`, clear `error`, clear the guard.  The source does not touch
`isLoading` and contains no fetch call, which is why this embedding neither
takes a fetch function nor reports dispatched pages. -/
def reset {T : Type} (initialPage : Nat) (s : CoordState T) : CoordState T :=
  { s with
    items := []
    page := initialPage
    hasMore := true
    error := none
    isFetching := false }

/-- `n` consecutive `reset` calls. -/
def iterReset {T : Type} (initialPage : Nat) : Nat → CoordState T → CoordState T
  | 0, s => s
  | n + 1, s => iterReset initialPage n (reset initialPage s)

/-- `n` consecutive awaited `loadMore` calls with the same fetch function. -/
def loadSeq {T : Type} (initialPage : Nat) (fetchFn : Nat → FetchOutcome T) :
    Nat → CoordState T → CoordState T
  | 0, s => s
  | n + 1, s => loadSeq initialPage fetchFn n (loadMore initialPage fetchFn s).1

/-! ## FileGrid adapter (FileGrid.tsx, lines 20 and 54-89) -/

/-- Page size used by the grid (FileGrid.tsx line 20). -/
def ITEMS_PER_PAGE : Nat := 9

/-- The `fetchFiles` closure FileGrid hands to `loadMore`: query the store
with the current search text and selected types (`undefined` when no type
is selected) at the given page, and repackage the result as
`{ data, totalCount, pageSize }`. -/
def gridFetchFiles (submittedFiles : List FileItem) (searchQuery : String)
    (selectedFileTypes : List String) (page : Nat) : FetchOutcome FileItem :=
  let res := getFilteredFiles submittedFiles
    { query := some searchQuery
      fileTypes :=
        if 0 < selectedFileTypes.length then some selectedFileTypes else none
      dateFrom := none
      dateTo := none }
    page ITEMS_PER_PAGE
  FetchOutcome.ok (some res.files) res.total ITEMS_PER_PAGE

/-! ## Concrete instances used by scenarios, witnesses and counterexamples -/

/-- A deterministic record for seeding concrete stores. -/
def demoFile (i : Nat) : FileItem :=
  { id := toString i
    name := "file-" ++ toString i
    size := 1000
    type := "text/plain"
    context := "diagnostic context"
    lastModified := 0
    status := FileUploadStatus.complete
    progress := some 100 }

/-- A store holding exactly 25 records. -/
def demoStore : List FileItem := (List.range 25).map demoFile

/-- Filters with every criterion absent. -/
def noFilters : FileFilters :=
  { query := none, fileTypes := none, dateFrom := none, dateTo := none }

/-- The grid fetch function over the 25-record store with empty search text
and no selected types. -/
def demoFetch : Nat → FetchOutcome FileItem := gridFetchFiles demoStore "" []

/-- State after `n` awaited `loadMore` calls of the demo scenario, starting
from the initial hook state with initial page 1. -/
def demoLoad (n : Nat) : CoordState FileItem :=
  loadSeq 1 demoFetch n (initCoordState 1)

/-- A record whose name and context contain no whitespace. -/
def cxFile : FileItem :=
  { id := "1"
    name := "a"
    size := 0
    type := "text/plain"
    context := "b"
    lastModified := 0
    status := FileUploadStatus.complete
    progress := none }

/-- A one-record store. -/
def cxStore : List FileItem := [cxFile]

/-- A filter whose text query is a non-empty, all-whitespace string. -/
def cxWhitespaceFilters : FileFilters :=
  { query := some " ", fileTypes := none, dateFrom := none, dateTo := none }

/-- A filter whose text query is the letter a. -/
def cxQueryAFilters : FileFilters :=
  { query := some "a", fileTypes := none, dateFrom := none, dateTo := none }

/-- A coordinator state used by witnesses: page 4, exhausted, with a stored
error, guard clear. -/
def wExhaustedState : CoordState Nat :=
  { items := [10, 11]
    page := 4
    isLoading := false
    hasMore := false
    error := some "previous failure"
    isFetching := false }

/-- A fetch function resolving with one item and a five-item total. -/
def wOneItemFetch : Nat → FetchOutcome Nat :=
  fun _ => FetchOutcome.ok (some [7]) 5 9

/-- A fetch function resolving with an empty array and a five-item total. -/
def wEmptyFetch : Nat → FetchOutcome Nat :=
  fun _ => FetchOutcome.ok (some []) 25 9

/-- A fetch function resolving with a non-array `data` member. -/
def wMalformedFetch : Nat → FetchOutcome Nat :=
  fun _ => FetchOutcome.ok none 5 9

/-- A fetch function whose promise rejects. -/
def wRejectFetch : Nat → FetchOutcome Nat :=
  fun _ => FetchOutcome.rejected "network down"

/-- A fetch function used as the retry after a rejection. -/
def wRetryFetch : Nat → FetchOutcome Nat :=
  fun _ => FetchOutcome.ok (some [9]) 3 9

/-- A fetch function resolving with an empty array and totalCount 5 at page
size 9, used to exhibit the hasMore formula. -/
def wShortFetch : Nat → FetchOutcome Nat :=
  fun _ => FetchOutcome.ok (some []) 5 9

/-! ## Statement forms used by the claim theorems and their witnesses -/

/-- Conclusion of the successful-fetch step of `loadMore`: replace on the
initial page and append otherwise, set `hasMore` from the page cursor
against the ceiling page total, always increment `page`, clear the error
and both completion flags, and dispatch exactly one fetch at the current
page. -/
def LoadSuccessSpec {T : Type} (initialPage : Nat) (fetchFn : Nat → FetchOutcome T)
    (s : CoordState T) (data : List T) (totalCount pageSize : Nat) : Prop :=
  (loadMore initialPage fetchFn s).1.items
      = (if s.page = initialPage then data else s.items ++ data) ∧
  (loadMore initialPage fetchFn s).1.hasMore
      = decide (s.page < totalPages totalCount pageSize) ∧
  (loadMore initialPage fetchFn s).1.page = s.page + 1 ∧
  (loadMore initialPage fetchFn s).1.error = none ∧
  (loadMore initialPage fetchFn s).1.isLoading = false ∧
  (loadMore initialPage fetchFn s).1.isFetching = false ∧
  (loadMore initialPage fetchFn s).2 = [s.page]

/-- Conclusion of the in-flight exclusion property: starting from a state
with the guard clear, the first call dispatches; a second call issued
before the first resolves is suppressed entirely (no dispatch, no state
change); the first call then completes exactly as a lone call would; and
any call on a guard-set state is a complete no-op. -/
def DoubleCallSpec {T : Type} (initialPage : Nat)
    (fetchFn secondFetchFn : Nat → FetchOutcome T) (s : CoordState T) : Prop :=
  (loadMoreStart s).2 = true ∧
  loadMore initialPage secondFetchFn (loadMoreStart s).1
      = ((loadMoreStart s).1, []) ∧
  (loadMore initialPage fetchFn s).1
      = loadMoreFinish initialPage s.page (fetchFn s.page) (loadMoreStart s).1 ∧
  (∀ busy : CoordState T, busy.isFetching = true →
      loadMore initialPage secondFetchFn busy = (busy, []))

/-- Conclusion of the rejection property: the error is captured, `items`,
`page` and `hasMore` are exactly as before the call, both completion flags
are cleared, and a subsequent successful call fetches the same page cursor
and merges its data as a lone successful call would. -/
def RejectionSpec {T : Type} (initialPage : Nat)
    (fetchFn retryFetchFn : Nat → FetchOutcome T) (s : CoordState T)
    (msg : String) (data : List T) : Prop :=
  (loadMore initialPage fetchFn s).1.error = some msg ∧
  (loadMore initialPage fetchFn s).1.items = s.items ∧
  (loadMore initialPage fetchFn s).1.page = s.page ∧
  (loadMore initialPage fetchFn s).1.hasMore = s.hasMore ∧
  (loadMore initialPage fetchFn s).1.isLoading = false ∧
  (loadMore initialPage fetchFn s).1.isFetching = false ∧
  (loadMore initialPage retryFetchFn (loadMore initialPage fetchFn s).1).2
      = [s.page] ∧
  (loadMore initialPage retryFetchFn (loadMore initialPage fetchFn s).1).1.items
      = (if s.page = initialPage then data else s.items ++ data)

/-- Conclusion of the pagination property of `getFilteredFiles`: the data is
the requested slice of the filtered set, the total is the pre-pagination
filtered size (independent of the page), the page length is bounded by the
limit, pages that fit entirely are full, and pages beyond the end are
empty. -/
def PaginationSpec (store : List FileItem) (filters : FileFilters)
    (p L : Nat) : Prop :=
  (getFilteredFiles store filters p L).files
      = ((filteredFiles store filters).drop ((p - 1) * L)).take L ∧
  (getFilteredFiles store filters p L).total
      = (filteredFiles store filters).length ∧
  (getFilteredFiles store filters p L).files.length ≤ L ∧
  (p * L ≤ (filteredFiles store filters).length →
    (getFilteredFiles store filters p L).files.length = L) ∧
  ((filteredFiles store filters).length ≤ (p - 1) * L →
    (getFilteredFiles store filters p L).files = [])

/-- Conclusion of the filter-correctness property: every surviving record
matches a non-blank text query, every surviving record has a requested
type when types are requested (so the two predicates combine as a
conjunction), and every stored record passing all given predicates
survives. -/
def FilterSpec (store : List FileItem) (filters : FileFilters) : Prop :=
  (∀ f ∈ filteredFiles store filters, ∀ qs, filters.query = some qs →
      strTrim qs ≠ "" → matchesQuery (strToLower qs) f = true) ∧
  (∀ f ∈ filteredFiles store filters, ∀ ts, filters.fileTypes = some ts →
      ts ≠ [] → ts.contains f.type = true) ∧
  (∀ f ∈ store, passesText filters.query f = true →
      passesType filters.fileTypes f = true →
      passesDateFrom filters.dateFrom f = true →
      passesDateTo filters.dateTo f = true →
      f ∈ filteredFiles store filters)

/-- Conclusion of the malformed-data property: `items`, `page` and
`hasMore` are untouched and both completion flags are cleared. -/
def MalformedSpec {T : Type} (initialPage : Nat) (fetchFn : Nat → FetchOutcome T)
    (s : CoordState T) : Prop :=
  (loadMore initialPage fetchFn s).1.items = s.items ∧
  (loadMore initialPage fetchFn s).1.page = s.page ∧
  (loadMore initialPage fetchFn s).1.hasMore = s.hasMore ∧
  (loadMore initialPage fetchFn s).1.isLoading = false ∧
  (loadMore initialPage fetchFn s).1.isFetching = false

/-- Conclusion of the analyze property: the call rejects with the
descriptive failure exactly when no stored record carries the id, the
store is unchanged, and a resolving call returns the mock result with its
summary, insights and recommendations. -/
def AnalyzeSpec (store : List FileItem) (fileId prompt : String) : Prop :=
  ((analyzeFile store fileId prompt).1 = Except.error "File not found" ↔
      ∀ f ∈ store, f.id ≠ fileId) ∧
  (analyzeFile store fileId prompt).2 = store ∧
  ((∃ f ∈ store, f.id = fileId) →
      (analyzeFile store fileId prompt).1 = Except.ok mockAnalysis)

/-- Conclusion of the exhaustion-blind property: with the guard clear, a
call always dispatches exactly one fetch at the current page (no matter
what `hasMore` or `error` hold), and a successful empty-array response
still increments the page cursor. -/
def ExhaustedCallSpec {T : Type} (initialPage : Nat)
    (fetchFn : Nat → FetchOutcome T) (s : CoordState T) : Prop :=
  (loadMore initialPage fetchFn s).2 = [s.page] ∧
  ∀ totalCount pageSize,
    fetchFn s.page = FetchOutcome.ok (some []) totalCount pageSize →
      (loadMore initialPage fetchFn s).1.page = s.page + 1

/-! ## Helper lemmas about the filter pipeline -/

/-- Membership characterisation of the text-filter stage. -/
theorem mem_applyTextFilter {f : FileItem} {q : Option String} {l : List FileItem} :
    f ∈ applyTextFilter q l ↔ f ∈ l ∧ passesText q f = true := by
  cases q with
  | none => simp [applyTextFilter, passesText]
  | some qs =>
    by_cases h : qs ≠ "" ∧ strTrim qs ≠ ""
    · simp [applyTextFilter, passesText, h, List.mem_filter]
    · simp [applyTextFilter, passesText, h]

/-- Membership characterisation of the type-filter stage. -/
theorem mem_applyTypeFilter {f : FileItem} {ts : Option (List String)}
    {l : List FileItem} :
    f ∈ applyTypeFilter ts l ↔ f ∈ l ∧ passesType ts f = true := by
  cases ts with
  | none => simp [applyTypeFilter, passesType]
  | some t =>
    by_cases h : 0 < t.length
    · simp [applyTypeFilter, passesType, h, List.mem_filter]
    · simp [applyTypeFilter, passesType, h]

/-- Membership characterisation of the lower-bound date stage. -/
theorem mem_applyDateFromFilter {f : FileItem} {d : Option Int} {l : List FileItem} :
    f ∈ applyDateFromFilter d l ↔ f ∈ l ∧ passesDateFrom d f = true := by
  cases d with
  | none => simp [applyDateFromFilter, passesDateFrom]
  | some t => simp [applyDateFromFilter, passesDateFrom, List.mem_filter]

/-- Membership characterisation of the upper-bound date stage. -/
theorem mem_applyDateToFilter {f : FileItem} {d : Option Int} {l : List FileItem} :
    f ∈ applyDateToFilter d l ↔ f ∈ l ∧ passesDateTo d f = true := by
  cases d with
  | none => simp [applyDateToFilter, passesDateTo]
  | some t => simp [applyDateToFilter, passesDateTo, List.mem_filter]

/-- Membership characterisation of the full filter pipeline. -/
theorem mem_filteredFiles {f : FileItem} {store : List FileItem}
    {filters : FileFilters} :
    f ∈ filteredFiles store filters ↔
      f ∈ store ∧ passesText filters.query f = true ∧
        passesType filters.fileTypes f = true ∧
        passesDateFrom filters.dateFrom f = true ∧
        passesDateTo filters.dateTo f = true := by
  simp [filteredFiles, mem_applyDateToFilter, mem_applyDateFromFilter,
    mem_applyTypeFilter, mem_applyTextFilter, and_assoc]

/-! ## Claim C1 -/

/-- Claim C1, counterexample.  A successful first-page fetch resolving with
an empty array, `totalCount = 5` and `pageSize = 9` leaves the accumulated
item count (0) strictly below `totalCount` (5), yet the code sets `hasMore`
to false (because it compares the page cursor with
`ceil(totalCount/pageSize) = 1`, not the accumulated count), and it still
increments `page` to 2 even though `hasMore` just became false.  This
refutes both the accumulated-count recomputation clause and the
increment-iff-more-remain clause of the claim. -/
theorem loadMore_hasMore_formula_cex :
    (loadMore 1 wShortFetch (initCoordState 1)).1.hasMore = false ∧
    (loadMore 1 wShortFetch (initCoordState 1)).1.items.length < 5 ∧
    (loadMore 1 wShortFetch (initCoordState 1)).1.page = 2 := by decide

/-- Claim C1, amended.  For every successful `loadMore(fetchFn)` call
(in-flight guard clear, `fetchFn` resolving with an array `data`): the
result replaces `items` when the captured `page` equals the initial page
and is appended otherwise; `hasMore` is set by comparing the page cursor
against `ceil(totalCount/pageSize)`; and `page` is incremented
unconditionally for the next call, whether or not more items remain. -/
theorem loadMore_success_step {T : Type} (initialPage : Nat)
    (fetchFn : Nat → FetchOutcome T) (s : CoordState T) (data : List T)
    (totalCount pageSize : Nat) (hguard : s.isFetching = false)
    (hps : 0 < pageSize)
    (hres : fetchFn s.page = FetchOutcome.ok (some data) totalCount pageSize) :
    LoadSuccessSpec initialPage fetchFn s data totalCount pageSize := by
  simp [LoadSuccessSpec, loadMore, loadMoreStart, loadMoreFinish, hguard, hres]

/-- Claim C1, witness: the amended step theorem applied to a concrete
single-item fetch from the initial state. -/
theorem loadMore_success_step_witness :
    (initCoordState 1 : CoordState Nat).isFetching = false ∧ 0 < 9 ∧
      LoadSuccessSpec 1 wOneItemFetch (initCoordState 1) [7] 5 9 :=
  ⟨rfl, by decide,
    loadMore_success_step 1 wOneItemFetch (initCoordState 1) [7] 5 9 rfl
      (by decide) rfl⟩

/-! ## Claim C2 -/

/-- Claim C2.  At most one fetch is in flight per coordinator instance: a
`loadMore` call made while the in-flight guard is set returns without
invoking `fetchFn` and without changing any state, so two calls issued
without awaiting the first dispatch exactly one fetch (the first call
dispatches, the overlapping second call is suppressed, and the first call
then completes as a lone call would). -/
theorem loadMore_inFlight_exclusion {T : Type} (initialPage : Nat)
    (fetchFn secondFetchFn : Nat → FetchOutcome T) (s : CoordState T)
    (hguard : s.isFetching = false) :
    DoubleCallSpec initialPage fetchFn secondFetchFn s := by
  refine ⟨?_, ?_, ?_, ?_⟩
  · simp [loadMoreStart, hguard]
  · simp [loadMore, loadMoreStart, hguard]
  · simp [loadMore, loadMoreStart, hguard]
  · intro busy hb
    simp [loadMore, loadMoreStart, hb]

/-- Claim C2, witness: the exclusion theorem applied to the initial state
with two concrete fetch functions. -/
theorem loadMore_inFlight_exclusion_witness :
    (initCoordState 1 : CoordState Nat).isFetching = false ∧
      DoubleCallSpec 1 wOneItemFetch wEmptyFetch (initCoordState 1) :=
  ⟨rfl, loadMore_inFlight_exclusion 1 wOneItemFetch wEmptyFetch
    (initCoordState 1) rfl⟩

/-! ## Claim C3 -/

/-- Claim C3.  When `fetchFn` rejects, the rejection is captured into
`error`; `items`, `page` and `hasMore` are left exactly as before the
call; `isLoading` and the in-flight guard are cleared; and a subsequent
successful `loadMore` fetches the same `page` cursor and appends (or
replaces, on the initial page) correctly. -/
theorem loadMore_rejection_preserves_state {T : Type} (initialPage : Nat)
    (fetchFn retryFetchFn : Nat → FetchOutcome T) (s : CoordState T)
    (msg : String) (data : List T) (totalCount pageSize : Nat)
    (hguard : s.isFetching = false)
    (hrej : fetchFn s.page = FetchOutcome.rejected msg)
    (hretry : retryFetchFn s.page
        = FetchOutcome.ok (some data) totalCount pageSize) :
    RejectionSpec initialPage fetchFn retryFetchFn s msg data := by
  simp [RejectionSpec, loadMore, loadMoreStart, loadMoreFinish, hguard, hrej,
    hretry]

/-- Claim C3, witness: a rejection followed by a successful retry from a
concrete mid-pagination state. -/
theorem loadMore_rejection_witness :
    wExhaustedState.isFetching = false ∧
      RejectionSpec 1 wRejectFetch wRetryFetch wExhaustedState
        "network down" [9] :=
  ⟨rfl, loadMore_rejection_preserves_state 1 wRejectFetch wRetryFetch
    wExhaustedState "network down" [9] 3 9 rfl rfl rfl⟩

/-! ## Claim C4 -/

/-- Claim C4, counterexample.  With the 25-record store at page size 9, the
fourth awaited `loadMore` call is not a no-op: it changes the coordinator
state (the page cursor moves from 4 to 5) and it dispatches one more fetch
(the invocation list of the fourth call is non-empty), because `loadMore`
never consults `hasMore`. -/
theorem demo_fourth_loadMore_not_noop :
    demoLoad 4 ≠ demoLoad 3 ∧ (loadMore 1 demoFetch (demoLoad 3)).2 ≠ [] := by
  decide

/-- Claim C4, amended.  With a store of exactly 25 records and page size 9:
the first awaited `loadMore` yields 9 items, `hasMore` true, and `page`
advanced to 2; after three successful awaited calls `items.length` is 25
and `hasMore` is false; and a fourth `loadMore` call leaves the same 25
items and `hasMore` false, although it still dispatches one fetch (which
returns an empty page) at cursor 4 and increments `page` to 5. -/
theorem demo_scenario_25_records :
    demoStore.length = 25 ∧
    (demoLoad 1).items.length = 9 ∧
    (demoLoad 1).hasMore = true ∧
    (demoLoad 1).page = 2 ∧
    (demoLoad 3).items.length = 25 ∧
    (demoLoad 3).hasMore = false ∧
    (demoLoad 4).items = (demoLoad 3).items ∧
    (demoLoad 4).hasMore = false ∧
    (loadMore 1 demoFetch (demoLoad 3)).2 = [(demoLoad 3).page] ∧
    (demoLoad 4).page = 5 := by decide

/-! ## Claim C5 -/

/-- Claim C5.  For every query with page `p ≥ 1` and limit `L ≥ 1`: the
returned page is the slice `[(p-1)*L, (p-1)*L + L)` of the filtered set;
`data.length ≤ L`, with equality on every page that fits entirely (every
page except possibly the last); pages beyond the end are empty; and the
total equals the size of the filtered set before pagination, the same for
every page of the query. -/
theorem getFilteredFiles_pagination (store : List FileItem)
    (filters : FileFilters) (p L : Nat) (hp : 1 ≤ p) (hL : 1 ≤ L) :
    PaginationSpec store filters p L := by
  have hmul : (p - 1) * L + L = p * L := by
    have h1 : p - 1 + 1 = p := Nat.sub_add_cancel hp
    calc (p - 1) * L + L = (p - 1 + 1) * L := by rw [Nat.add_mul, Nat.one_mul]
      _ = p * L := by rw [h1]
  refine ⟨rfl, rfl, ?_, ?_, ?_⟩
  · show (((filteredFiles store filters).drop ((p - 1) * L)).take L).length ≤ L
    rw [List.length_take]
    omega
  · intro hfull
    show (((filteredFiles store filters).drop ((p - 1) * L)).take L).length = L
    rw [List.length_take, List.length_drop]
    omega
  · intro hbeyond
    show ((filteredFiles store filters).drop ((p - 1) * L)).take L = []
    rw [List.drop_eq_nil_of_le hbeyond, List.take_nil]

/-- Claim C5, witness: the pagination theorem applied to the concrete
25-record store with no filters at page 2, limit 9. -/
theorem getFilteredFiles_pagination_witness :
    1 ≤ 2 ∧ 1 ≤ 9 ∧ PaginationSpec demoStore noFilters 2 9 :=
  ⟨by decide, by decide,
    getFilteredFiles_pagination demoStore noFilters 2 9 (by decide) (by decide)⟩

/-! ## Claim C6 -/

/-- Claim C6, counterexample.  The query string consisting of one space is
non-empty, but `query.trim() !== ''` fails, so the text filter is skipped:
the store record survives filtering although neither its name nor its
context contains the query text. -/
theorem filter_whitespace_query_cex :
    cxWhitespaceFilters.query = some " " ∧ (" " : String) ≠ "" ∧
    filteredFiles cxStore cxWhitespaceFilters = [cxFile] ∧
    matchesQuery (strToLower " ") cxFile = false := by decide

/-- Claim C6, amended.  For every store and every query: if the text filter
is non-blank (non-empty after trimming whitespace), every surviving record
matches it case-insensitively on name or context; if the type filter is a
non-empty list, every surviving record has its type in the list; both
predicates apply conjointly when both are given; and every stored record
passing all given predicates survives the filter. -/
theorem filteredFiles_filter_correct (store : List FileItem)
    (filters : FileFilters) : FilterSpec store filters := by
  refine ⟨?_, ?_, ?_⟩
  · intro f hf qs hq htrim
    have h := (mem_filteredFiles.mp hf).2.1
    rw [hq] at h
    have hne : qs ≠ "" := by
      intro he
      apply htrim
      rw [he]
      decide
    simpa [passesText, hne, htrim] using h
  · intro f hf ts ht hne
    have h := (mem_filteredFiles.mp hf).2.2.1
    rw [ht] at h
    have hlen : 0 < ts.length := List.length_pos.mpr hne
    simpa [passesType, hlen] using h
  · intro f hf h1 h2 h3 h4
    exact mem_filteredFiles.mpr ⟨hf, h1, h2, h3, h4⟩

/-- Claim C6, witness: the record of the one-record store survives the
query for the letter a, and the amended theorem yields that it matches. -/
theorem filteredFiles_filter_witness :
    cxFile ∈ filteredFiles cxStore cxQueryAFilters ∧ strTrim "a" ≠ "" ∧
      matchesQuery (strToLower "a") cxFile = true :=
  ⟨by decide, by decide,
    (filteredFiles_filter_correct cxStore cxQueryAFilters).1 cxFile (by decide)
      "a" rfl (by decide)⟩

/-! ## Claim C7 -/

/-- Claim C7.  When `fetchFn` resolves with a `data` member that is not an
array (or the response is malformed so that accessing it throws, which the
`catch` branch absorbs), the coordinator leaves `items`, `page` and
`hasMore` untouched, clears `isLoading` and the guard, and no exception
escapes `loadMore` (the embedding is a total function into states). -/
theorem loadMore_malformed_no_mutation {T : Type} (initialPage : Nat)
    (fetchFn : Nat → FetchOutcome T) (s : CoordState T)
    (hguard : s.isFetching = false)
    (hmal : (∃ totalCount pageSize,
        fetchFn s.page = FetchOutcome.ok none totalCount pageSize) ∨
        ∃ msg, fetchFn s.page = FetchOutcome.rejected msg) :
    MalformedSpec initialPage fetchFn s := by
  rcases hmal with ⟨tc, ps, h⟩ | ⟨msg, h⟩ <;>
    simp [MalformedSpec, loadMore, loadMoreStart, loadMoreFinish, hguard, h]

/-- Claim C7, witness: a non-array response applied to the initial state. -/
theorem loadMore_malformed_witness :
    (initCoordState 1 : CoordState Nat).isFetching = false ∧
      MalformedSpec 1 wMalformedFetch (initCoordState 1) :=
  ⟨rfl, loadMore_malformed_no_mutation 1 wMalformedFetch (initCoordState 1) rfl
    (Or.inl ⟨5, 9, rfl⟩)⟩

/-! ## Claim C8 -/

/-- Claim C8.  Calling `reset` any number of consecutive times from any
coordinator state yields the same resulting state as a single `reset`:
items empty, `page` at the initial page, `hasMore` true, `error` cleared,
in-flight guard cleared.  The `reset` embedding takes no fetch function
because the source body contains no fetch call: a reset triggers no
fetch. -/
theorem reset_idempotent_state {T : Type} (initialPage : Nat)
    (s : CoordState T) (n : Nat) :
    iterReset initialPage (n + 1) s = reset initialPage s ∧
    (iterReset initialPage (n + 1) s).items = ([] : List T) ∧
    (iterReset initialPage (n + 1) s).page = initialPage ∧
    (iterReset initialPage (n + 1) s).hasMore = true ∧
    (iterReset initialPage (n + 1) s).error = none ∧
    (iterReset initialPage (n + 1) s).isFetching = false := by
  have key : ∀ m (t : CoordState T),
      iterReset initialPage (m + 1) t = reset initialPage t := by
    intro m
    induction m with
    | zero => intro t; rfl
    | succ k ih =>
      intro t
      have h2 : iterReset initialPage (k + 1 + 1) t
          = iterReset initialPage (k + 1) (reset initialPage t) := rfl
      rw [h2, ih]
      rfl
  rw [key n s]
  exact ⟨rfl, rfl, rfl, rfl, rfl, rfl⟩

/-! ## Claim C9 -/

/-- Claim C9.  `analyzeFile(id, prompt)` rejects with the descriptive
failure `"File not found"` exactly when no record in the store carries the
given id; the store contents are unchanged by the call; and when the id
resolves, the call returns the mock result carrying a summary, insights
and recommendations. -/
theorem analyzeFile_not_found_spec (store : List FileItem)
    (fileId prompt : String) : AnalyzeSpec store fileId prompt := by
  unfold AnalyzeSpec analyzeFile
  cases hfind : store.find? (fun f => f.id == fileId) with
  | none =>
    have hall := List.find?_eq_none.mp hfind
    refine ⟨⟨fun _ f hf heq => hall f hf (by simp [heq]), fun _ => rfl⟩, rfl, ?_⟩
    rintro ⟨f, hf, heq⟩
    exact absurd (by simp [heq] : (f.id == fileId) = true) (hall f hf)
  | some a =>
    have hpa := List.find?_some hfind
    have hmem : a ∈ store := List.mem_of_find?_eq_some hfind
    refine ⟨⟨fun h => Except.noConfusion h, fun hall => ?_⟩, rfl, fun _ => rfl⟩
    exact absurd (by simpa using hpa : a.id = fileId) (hall a hmem)

/-- Claim C9, witness: the record with id 1 resolves in the one-record
store and the call returns the mock analysis. -/
theorem analyzeFile_spec_witness :
    (∃ f ∈ cxStore, f.id = "1") ∧
      (analyzeFile cxStore "1" "why").1 = Except.ok mockAnalysis :=
  ⟨⟨cxFile, by decide, rfl⟩,
    (analyzeFile_not_found_spec cxStore "1" "why").2.2 ⟨cxFile, by decide, rfl⟩⟩

/-! ## Claim C10 -/

/-- Claim C10.  `loadMore` never consults `hasMore`: from every state with
the guard clear (whatever `hasMore` and `error` hold), a call invokes
`fetchFn` exactly once with the current page, and a successful empty-array
response still increments `page`. -/
theorem loadMore_ignores_exhaustion {T : Type} (initialPage : Nat)
    (fetchFn : Nat → FetchOutcome T) (s : CoordState T)
    (hguard : s.isFetching = false) :
    ExhaustedCallSpec initialPage fetchFn s := by
  constructor
  · simp [loadMore, loadMoreStart, hguard]
  · intro totalCount pageSize h
    simp [loadMore, loadMoreStart, loadMoreFinish, hguard, h]

/-- Claim C10, witness: a state with `hasMore` false and a stored error
still dispatches exactly one fetch at its page cursor, and the empty
response moves the cursor forward. -/
theorem loadMore_ignores_exhaustion_witness :
    wExhaustedState.isFetching = false ∧ wExhaustedState.hasMore = false ∧
      wExhaustedState.error = some "previous failure" ∧
      ExhaustedCallSpec 1 wEmptyFetch wExhaustedState :=
  ⟨rfl, rfl, rfl, loadMore_ignores_exhaustion 1 wEmptyFetch wExhaustedState rfl⟩
